import Mathlib

/-!
Shallow embedding of `buildCanvasSDXLInpaintGraph`
(src/invokeai/frontend/web/src/features/nodes/util/graphBuilders/buildCanvasSDXLInpaintGraph.ts)
and the data model of the generation-graph document it produces, together with
proofs settling the specification claims about it.

JS objects become Lean structures with `Option` fields for properties that may
be absent; the string-keyed `nodes` object becomes an association list keyed by
`NodeId`; `graph.nodes[k] = v` becomes replace-or-append on that list; `throw`
becomes `Except.error`.  JS numbers are embedded as `Int` where the UI supplies
integers (dimensions, steps, seeds, blur radii) and as `ℚ` for the fractional
denoising parameters; no floating-point rounding is modelled.
-/

/-- Node-id constants from `features/nodes/util/graphBuilders/constants.ts`
(the file itself is not under src/; each constant there is a distinct string
literal, embedded here as a distinct constructor). -/
inductive NodeId where
  | SDXL_MODEL_LOADER
  | POSITIVE_CONDITIONING
  | NEGATIVE_CONDITIONING
  | MASK_BLUR
  | INPAINT_IMAGE
  | NOISE
  | INPAINT_CREATE_MASK
  | SDXL_DENOISE_LATENTS
  | CANVAS_COHERENCE_NOISE
  | CANVAS_COHERENCE_NOISE_INCREMENT
  | CANVAS_COHERENCE_DENOISE_LATENTS
  | CANVAS_COHERENCE_INPAINT_CREATE_MASK
  | CANVAS_COHERENCE_MASK_EDGE
  | LATENTS_TO_IMAGE
  | CANVAS_OUTPUT
  | RANGE_OF_SIZE
  | ITERATE
  | RANDOM_INT
  | INPAINT_IMAGE_RESIZE_UP
  | MASK_RESIZE_UP
  | INPAINT_IMAGE_RESIZE_DOWN
  | MASK_RESIZE_DOWN
  | SEAMLESS
  | SDXL_REFINER_SEAMLESS
  deriving DecidableEq, Repr

/-- The graph id constant `SDXL_CANVAS_INPAINT_GRAPH` from constants.ts. -/
def SDXL_CANVAS_INPAINT_GRAPH : String := "sdxl_canvas_inpaint_graph"

/-- `ImageDTO` from services/api/types: only identity matters to the builder. -/
structure ImageDTO where
  image_name : String
  deriving DecidableEq, Repr

/-- The main-model identifier stored in `state.generation.model`. -/
structure MainModel where
  model_name : String
  base_model : String
  deriving DecidableEq, Repr

/-- A node of the generation-graph document.  Each JS node object carries a
`type` discriminator, an `id`, and a subset of the literal parameters below;
absent properties are `none`. -/
structure Node where
  type : String
  id : NodeId
  is_intermediate : Option Bool := none
  model : Option MainModel := none
  prompt : Option String := none
  style : Option String := none
  radius : Option Int := none
  blur_type : Option String := none
  fp32 : Option Bool := none
  use_cpu : Option Bool := none
  width : Option Int := none
  height : Option Int := none
  steps : Option Int := none
  cfg_scale : Option ℚ := none
  scheduler : Option String := none
  denoising_start : Option ℚ := none
  denoising_end : Option ℚ := none
  b : Option Int := none
  reference : Option ImageDTO := none
  size : Option Int := none
  step : Option Int := none
  start : Option Int := none
  image : Option ImageDTO := none
  mask : Option ImageDTO := none
  edge_blur : Option Int := none
  edge_size : Option Int := none
  low_threshold : Option Int := none
  high_threshold : Option Int := none
  deriving DecidableEq, Repr

/-- One endpoint of an edge: a node id and a field name on that node. -/
structure EdgeEndpoint where
  node_id : NodeId
  field : String
  deriving DecidableEq, Repr

/-- A directed field-to-field connection of the graph document. -/
structure Edge where
  source : EdgeEndpoint
  destination : EdgeEndpoint
  deriving DecidableEq, Repr

/-- The generation-graph document: `{id, nodes, edges}`.  The JS `nodes`
object (string-keyed map) is an association list in insertion order. -/
structure Graph where
  id : String
  nodes : List (NodeId × Node)
  edges : List Edge
  deriving DecidableEq, Repr

/-- `graph.nodes[k] = v` on a JS object: replace the entry in place when the
key is present, append it otherwise. -/
def setNode (nodes : List (NodeId × Node)) (k : NodeId) (v : Node) :
    List (NodeId × Node) :=
  if nodes.any (fun p => p.1 == k) then
    nodes.map (fun p => if p.1 = k then (k, v) else p)
  else
    nodes ++ [(k, v)]

/-- In-place mutation of an existing node (`graph.nodes[k].f = x` or
`graph.nodes[k] = { ...graph.nodes[k], f: x }`). -/
def updNode (nodes : List (NodeId × Node)) (k : NodeId) (f : Node → Node) :
    List (NodeId × Node) :=
  nodes.map (fun p => if p.1 = k then (p.1, f p.2) else p)

/-- `graph.edges.push(e1, e2, ...)`: append edges in order. -/
def pushEdges (g : Graph) (es : List Edge) : Graph :=
  { g with edges := g.edges ++ es }

/-- Lookup of a node by key in the `nodes` map. -/
def getNode (g : Graph) (k : NodeId) : Option Node :=
  (g.nodes.find? (fun p => p.1 == k)).map Prod.snd

/-- Key membership in the `nodes` map. -/
def hasNode (g : Graph) (k : NodeId) : Bool :=
  g.nodes.any (fun p => p.1 == k)

/-- `state.canvas.boundingBoxScaleMethod`: 'none' | 'auto' | 'manual'. -/
inductive ScaleMethod where
  | none
  | auto
  | manual
  deriving DecidableEq, Repr

/-- `state.generation.canvasCoherenceMode`: 'unmasked' | 'mask' | 'edge'. -/
inductive CoherenceMode where
  | unmasked
  | mask
  | edge
  deriving DecidableEq, Repr

/-- Width/height pair of the canvas bounding box. -/
structure Dimensions where
  width : Int
  height : Int
  deriving DecidableEq, Repr

/-- The slice of `state.generation` read by the builder. -/
structure GenerationState where
  positivePrompt : String
  negativePrompt : String
  model : Option MainModel
  cfgScale : ℚ
  scheduler : String
  steps : Int
  iterations : Int
  seed : Int
  shouldRandomizeSeed : Bool
  vaePrecision : String
  shouldUseNoiseSettings : Bool
  shouldUseCpuNoise : Bool
  maskBlur : Int
  maskBlurMethod : String
  canvasCoherenceMode : CoherenceMode
  canvasCoherenceSteps : Int
  canvasCoherenceStrength : ℚ
  seamlessXAxis : Bool
  seamlessYAxis : Bool
  deriving DecidableEq, Repr

/-- The slice of `state.sdxl` read by the builder.  The two style-prompt
fields feed `craftSDXLStylePrompt`, whose source is not under src/. -/
structure SdxlState where
  sdxlImg2ImgDenoisingStrength : ℚ
  shouldUseSDXLRefiner : Bool
  refinerStart : ℚ
  shouldConcatSDXLStylePrompt : Bool
  positiveStylePrompt : String
  negativeStylePrompt : String
  deriving DecidableEq, Repr

/-- The slice of `state.canvas` read by the builder. -/
structure CanvasState where
  boundingBoxDimensions : Dimensions
  scaledBoundingBoxDimensions : Dimensions
  boundingBoxScaleMethod : ScaleMethod
  deriving DecidableEq, Repr

/-- The slice of `state.system` read by the builder. -/
structure SystemState where
  shouldUseNSFWChecker : Bool
  shouldUseWatermarker : Bool
  deriving DecidableEq, Repr

/-- The `RootState` projected to the slices the builder reads. -/
structure RootState where
  generation : GenerationState
  sdxl : SdxlState
  canvas : CanvasState
  system : SystemState
  deriving DecidableEq, Repr

/-- Modelled from the spec: `craftSDXLStylePrompt`
(features/nodes/util/graphBuilders/helpers/craftSDXLStylePrompt.ts) is code of
this repository not under src/.  The spec treats prompts as literal node
parameters; the style prompt is taken from state and, when
`shouldConcatSDXLStylePrompt` is set, concatenated with the main prompt. -/
def craftSDXLStylePrompt (state : RootState)
    (shouldConcatSDXLStylePrompt : Bool) : String × String :=
  if shouldConcatSDXLStylePrompt then
    (state.generation.positivePrompt ++ " " ++ state.sdxl.positiveStylePrompt,
      state.generation.negativePrompt ++ " " ++ state.sdxl.negativeStylePrompt)
  else
    (state.sdxl.positiveStylePrompt, state.sdxl.negativeStylePrompt)

/-- Modelled from the spec: `addSeamlessToLinearGraph` is code of this
repository not under src/.  The spec describes the seamless stage only as an
optional pipeline stage "contributing a fixed subgraph fragment" without
specifying the fragment, so the fragment is modelled as empty and the graph is
returned unchanged. -/
def addSeamlessToLinearGraph (_state : RootState) (graph : Graph)
    (_modelLoaderNodeId : NodeId) : Graph :=
  graph

/-- Modelled from the spec: `addSDXLRefinerToGraph` is code of this repository
not under src/.  The spec describes the refiner stage only as an optional
pipeline stage "contributing a fixed subgraph fragment" without specifying the
fragment, so the fragment is modelled as empty. -/
def addSDXLRefinerToGraph (_state : RootState) (graph : Graph)
    (_baseNodeId : NodeId) (_modelLoaderNodeId : NodeId)
    (_canvasInitImage : ImageDTO) : Graph :=
  graph

/-- Modelled from the spec: `addVAEToGraph` is code of this repository not
under src/; its fragment is unspecified by the spec and modelled as empty. -/
def addVAEToGraph (_state : RootState) (graph : Graph)
    (_modelLoaderNodeId : NodeId) : Graph :=
  graph

/-- Modelled from the spec: `addSDXLLoRAsToGraph` is code of this repository
not under src/; its fragment is unspecified by the spec and modelled as
empty. -/
def addSDXLLoRAsToGraph (_state : RootState) (graph : Graph)
    (_baseNodeId : NodeId) (_modelLoaderNodeId : NodeId) : Graph :=
  graph

/-- Modelled from the spec: `addControlNetToLinearGraph` is code of this
repository not under src/; its fragment is unspecified by the spec and
modelled as empty. -/
def addControlNetToLinearGraph (_state : RootState) (graph : Graph)
    (_baseNodeId : NodeId) : Graph :=
  graph

/-- Modelled from the spec: `addNSFWCheckerToGraph` is code of this repository
not under src/; its fragment is unspecified by the spec and modelled as
empty. -/
def addNSFWCheckerToGraph (_state : RootState) (graph : Graph)
    (_nodeIdToAddTo : NodeId) : Graph :=
  graph

/-- Modelled from the spec: `addWatermarkerToGraph` is code of this repository
not under src/; its fragment is unspecified by the spec and modelled as
empty. -/
def addWatermarkerToGraph (_state : RootState) (graph : Graph)
    (_nodeIdToAddTo : NodeId) : Graph :=
  graph

/-- Modelled from the spec: `addSaveImageNode` is code of this repository not
under src/; its fragment is unspecified by the spec and modelled as empty. -/
def addSaveImageNode (_state : RootState) (graph : Graph) : Graph :=
  graph

set_option maxHeartbeats 1000000 in
/-- The initial `graph` literal of `buildCanvasSDXLInpaintGraph` (the
`const graph: NonNullableGraph = {...}` of the source): fifteen nodes and
twenty edges, before the conditional sections run. -/
def initialGraph (state : RootState) (model : MainModel)
    (canvasInitImage : ImageDTO) : Graph :=
  let positivePrompt := state.generation.positivePrompt
  let negativePrompt := state.generation.negativePrompt
  let cfg_scale := state.generation.cfgScale
  let scheduler := state.generation.scheduler
  let steps := state.generation.steps
  let iterations := state.generation.iterations
  let vaePrecision := state.generation.vaePrecision
  let shouldUseNoiseSettings := state.generation.shouldUseNoiseSettings
  let shouldUseCpuNoise := state.generation.shouldUseCpuNoise
  let maskBlur := state.generation.maskBlur
  let maskBlurMethod := state.generation.maskBlurMethod
  let canvasCoherenceSteps := state.generation.canvasCoherenceSteps
  let canvasCoherenceStrength := state.generation.canvasCoherenceStrength
  let strength := state.sdxl.sdxlImg2ImgDenoisingStrength
  let shouldUseSDXLRefiner := state.sdxl.shouldUseSDXLRefiner
  let refinerStart := state.sdxl.refinerStart
  let shouldConcatSDXLStylePrompt := state.sdxl.shouldConcatSDXLStylePrompt
  let fp32 := vaePrecision == "fp32"
  let is_intermediate := true
  let modelLoaderNodeId := NodeId.SDXL_MODEL_LOADER
  let use_cpu :=
    if shouldUseNoiseSettings then shouldUseCpuNoise else shouldUseCpuNoise
  -- Construct Style Prompt
  let stylePrompts := craftSDXLStylePrompt state shouldConcatSDXLStylePrompt
  let craftedPositiveStylePrompt := stylePrompts.1
  let craftedNegativeStylePrompt := stylePrompts.2
  { id := SDXL_CANVAS_INPAINT_GRAPH
    nodes :=
      [ (modelLoaderNodeId,
          { type := "sdxl_model_loader"
            id := modelLoaderNodeId
            model := Option.some model }),
        (NodeId.POSITIVE_CONDITIONING,
          { type := "sdxl_compel_prompt"
            id := NodeId.POSITIVE_CONDITIONING
            prompt := Option.some positivePrompt
            style := Option.some craftedPositiveStylePrompt }),
        (NodeId.NEGATIVE_CONDITIONING,
          { type := "sdxl_compel_prompt"
            id := NodeId.NEGATIVE_CONDITIONING
            prompt := Option.some negativePrompt
            style := Option.some craftedNegativeStylePrompt }),
        (NodeId.MASK_BLUR,
          { type := "img_blur"
            id := NodeId.MASK_BLUR
            is_intermediate := Option.some is_intermediate
            radius := Option.some maskBlur
            blur_type := Option.some maskBlurMethod }),
        (NodeId.INPAINT_IMAGE,
          { type := "i2l"
            id := NodeId.INPAINT_IMAGE
            is_intermediate := Option.some is_intermediate
            fp32 := Option.some fp32 }),
        (NodeId.NOISE,
          { type := "noise"
            id := NodeId.NOISE
            use_cpu := Option.some use_cpu
            is_intermediate := Option.some is_intermediate }),
        (NodeId.INPAINT_CREATE_MASK,
          { type := "create_denoise_mask"
            id := NodeId.INPAINT_CREATE_MASK
            is_intermediate := Option.some is_intermediate
            fp32 := Option.some fp32 }),
        (NodeId.SDXL_DENOISE_LATENTS,
          { type := "denoise_latents"
            id := NodeId.SDXL_DENOISE_LATENTS
            is_intermediate := Option.some is_intermediate
            steps := Option.some steps
            cfg_scale := Option.some cfg_scale
            scheduler := Option.some scheduler
            denoising_start :=
              Option.some
                (if shouldUseSDXLRefiner then
                  min refinerStart (1 - strength)
                else 1 - strength)
            denoising_end :=
              Option.some
                (if shouldUseSDXLRefiner then refinerStart else 1) }),
        -- NOTE: the source stores this node under the key
        -- CANVAS_COHERENCE_NOISE but gives it `id: NOISE`.
        (NodeId.CANVAS_COHERENCE_NOISE,
          { type := "noise"
            id := NodeId.NOISE
            use_cpu := Option.some use_cpu
            is_intermediate := Option.some is_intermediate }),
        (NodeId.CANVAS_COHERENCE_NOISE_INCREMENT,
          { type := "add"
            id := NodeId.CANVAS_COHERENCE_NOISE_INCREMENT
            b := Option.some 1
            is_intermediate := Option.some is_intermediate }),
        (NodeId.CANVAS_COHERENCE_DENOISE_LATENTS,
          { type := "denoise_latents"
            id := NodeId.CANVAS_COHERENCE_DENOISE_LATENTS
            is_intermediate := Option.some is_intermediate
            steps := Option.some canvasCoherenceSteps
            cfg_scale := Option.some cfg_scale
            scheduler := Option.some scheduler
            denoising_start := Option.some (1 - canvasCoherenceStrength)
            denoising_end := Option.some 1 }),
        (NodeId.LATENTS_TO_IMAGE,
          { type := "l2i"
            id := NodeId.LATENTS_TO_IMAGE
            is_intermediate := Option.some is_intermediate
            fp32 := Option.some fp32 }),
        (NodeId.CANVAS_OUTPUT,
          { type := "color_correct"
            id := NodeId.CANVAS_OUTPUT
            is_intermediate := Option.some is_intermediate
            reference := Option.some canvasInitImage }),
        (NodeId.RANGE_OF_SIZE,
          { type := "range_of_size"
            id := NodeId.RANGE_OF_SIZE
            is_intermediate := Option.some is_intermediate
            -- seed - must be connected manually
            size := Option.some iterations
            step := Option.some 1 }),
        (NodeId.ITERATE,
          { type := "iterate"
            id := NodeId.ITERATE
            is_intermediate := Option.some is_intermediate }) ]
    edges :=
      [ -- Connect Model Loader to UNet and CLIP
        { source := { node_id := modelLoaderNodeId, field := "unet" }
          destination :=
            { node_id := NodeId.SDXL_DENOISE_LATENTS, field := "unet" } },
        { source := { node_id := modelLoaderNodeId, field := "clip" }
          destination :=
            { node_id := NodeId.POSITIVE_CONDITIONING, field := "clip" } },
        { source := { node_id := modelLoaderNodeId, field := "clip2" }
          destination :=
            { node_id := NodeId.POSITIVE_CONDITIONING, field := "clip2" } },
        { source := { node_id := modelLoaderNodeId, field := "clip" }
          destination :=
            { node_id := NodeId.NEGATIVE_CONDITIONING, field := "clip" } },
        { source := { node_id := modelLoaderNodeId, field := "clip2" }
          destination :=
            { node_id := NodeId.NEGATIVE_CONDITIONING, field := "clip2" } },
        -- Connect everything to Inpaint
        { source :=
            { node_id := NodeId.POSITIVE_CONDITIONING,
              field := "conditioning" }
          destination :=
            { node_id := NodeId.SDXL_DENOISE_LATENTS,
              field := "positive_conditioning" } },
        { source :=
            { node_id := NodeId.NEGATIVE_CONDITIONING,
              field := "conditioning" }
          destination :=
            { node_id := NodeId.SDXL_DENOISE_LATENTS,
              field := "negative_conditioning" } },
        { source := { node_id := NodeId.NOISE, field := "noise" }
          destination :=
            { node_id := NodeId.SDXL_DENOISE_LATENTS, field := "noise" } },
        { source := { node_id := NodeId.INPAINT_IMAGE, field := "latents" }
          destination :=
            { node_id := NodeId.SDXL_DENOISE_LATENTS, field := "latents" } },
        -- Create Inpaint Mask
        { source := { node_id := NodeId.MASK_BLUR, field := "image" }
          destination :=
            { node_id := NodeId.INPAINT_CREATE_MASK, field := "mask" } },
        { source :=
            { node_id := NodeId.INPAINT_CREATE_MASK,
              field := "denoise_mask" }
          destination :=
            { node_id := NodeId.SDXL_DENOISE_LATENTS,
              field := "denoise_mask" } },
        -- Iterate
        { source :=
            { node_id := NodeId.RANGE_OF_SIZE, field := "collection" }
          destination :=
            { node_id := NodeId.ITERATE, field := "collection" } },
        { source := { node_id := NodeId.ITERATE, field := "item" }
          destination := { node_id := NodeId.NOISE, field := "seed" } },
        -- Canvas Refine
        { source := { node_id := NodeId.ITERATE, field := "item" }
          destination :=
            { node_id := NodeId.CANVAS_COHERENCE_NOISE_INCREMENT,
              field := "a" } },
        { source :=
            { node_id := NodeId.CANVAS_COHERENCE_NOISE_INCREMENT,
              field := "value" }
          destination :=
            { node_id := NodeId.CANVAS_COHERENCE_NOISE, field := "seed" } },
        { source := { node_id := modelLoaderNodeId, field := "unet" }
          destination :=
            { node_id := NodeId.CANVAS_COHERENCE_DENOISE_LATENTS,
              field := "unet" } },
        { source :=
            { node_id := NodeId.POSITIVE_CONDITIONING,
              field := "conditioning" }
          destination :=
            { node_id := NodeId.CANVAS_COHERENCE_DENOISE_LATENTS,
              field := "positive_conditioning" } },
        { source :=
            { node_id := NodeId.NEGATIVE_CONDITIONING,
              field := "conditioning" }
          destination :=
            { node_id := NodeId.CANVAS_COHERENCE_DENOISE_LATENTS,
              field := "negative_conditioning" } },
        { source :=
            { node_id := NodeId.CANVAS_COHERENCE_NOISE, field := "noise" }
          destination :=
            { node_id := NodeId.CANVAS_COHERENCE_DENOISE_LATENTS,
              field := "noise" } },
        { source :=
            { node_id := NodeId.SDXL_DENOISE_LATENTS, field := "latents" }
          destination :=
            { node_id := NodeId.CANVAS_COHERENCE_DENOISE_LATENTS,
              field := "latents" } },
        -- Decode Inpainted Latents To Image
        { source :=
            { node_id := NodeId.CANVAS_COHERENCE_DENOISE_LATENTS,
              field := "latents" }
          destination :=
            { node_id := NodeId.LATENTS_TO_IMAGE, field := "latents" } } ] }

/-- The "Handle Scale Before Processing" section of the source: when
`['auto', 'manual'].includes(boundingBoxScaleMethod)` the four resize nodes
are added, the noise nodes get the scaled dimensions and seven edges are
pushed; otherwise the noise nodes get the bounding-box dimensions, the images
are attached directly and two edges are pushed. -/
def scaleStep (state : RootState) (canvasInitImage : ImageDTO)
    (canvasMaskImage : ImageDTO) (graph : Graph) : Graph :=
  let width := state.canvas.boundingBoxDimensions.width
  let height := state.canvas.boundingBoxDimensions.height
  let scaledBoundingBoxDimensions := state.canvas.scaledBoundingBoxDimensions
  let boundingBoxScaleMethod := state.canvas.boundingBoxScaleMethod
  let is_intermediate := true
  -- ['auto', 'manual'].includes(boundingBoxScaleMethod)
  let isUsingScaledDimensions :=
    boundingBoxScaleMethod = ScaleMethod.auto ∨
      boundingBoxScaleMethod = ScaleMethod.manual
  if isUsingScaledDimensions then
    let scaledWidth := scaledBoundingBoxDimensions.width
    let scaledHeight := scaledBoundingBoxDimensions.height
    -- Add Scaling Nodes
    let nodes := setNode graph.nodes NodeId.INPAINT_IMAGE_RESIZE_UP
      { type := "img_resize"
        id := NodeId.INPAINT_IMAGE_RESIZE_UP
        is_intermediate := Option.some is_intermediate
        width := Option.some scaledWidth
        height := Option.some scaledHeight
        image := Option.some canvasInitImage }
    let nodes := setNode nodes NodeId.MASK_RESIZE_UP
      { type := "img_resize"
        id := NodeId.MASK_RESIZE_UP
        is_intermediate := Option.some is_intermediate
        width := Option.some scaledWidth
        height := Option.some scaledHeight
        image := Option.some canvasMaskImage }
    let nodes := setNode nodes NodeId.INPAINT_IMAGE_RESIZE_DOWN
      { type := "img_resize"
        id := NodeId.INPAINT_IMAGE_RESIZE_DOWN
        is_intermediate := Option.some is_intermediate
        width := Option.some width
        height := Option.some height }
    let nodes := setNode nodes NodeId.MASK_RESIZE_DOWN
      { type := "img_resize"
        id := NodeId.MASK_RESIZE_DOWN
        is_intermediate := Option.some is_intermediate
        width := Option.some width
        height := Option.some height }
    let nodes := updNode nodes NodeId.NOISE
      (fun nd => { nd with
        width := Option.some scaledWidth
        height := Option.some scaledHeight })
    let nodes := updNode nodes NodeId.CANVAS_COHERENCE_NOISE
      (fun nd => { nd with
        width := Option.some scaledWidth
        height := Option.some scaledHeight })
    -- Connect Nodes
    pushEdges { graph with nodes := nodes }
        [ -- Scale Inpaint Image and Mask
          { source :=
              { node_id := NodeId.INPAINT_IMAGE_RESIZE_UP,
                field := "image" }
            destination :=
              { node_id := NodeId.INPAINT_IMAGE, field := "image" } },
          { source :=
              { node_id := NodeId.MASK_RESIZE_UP, field := "image" }
            destination :=
              { node_id := NodeId.MASK_BLUR, field := "image" } },
          { source :=
              { node_id := NodeId.INPAINT_IMAGE_RESIZE_UP,
                field := "image" }
            destination :=
              { node_id := NodeId.INPAINT_CREATE_MASK, field := "image" } },
          -- Color Correct The Inpainted Result
          { source :=
              { node_id := NodeId.LATENTS_TO_IMAGE, field := "image" }
            destination :=
              { node_id := NodeId.INPAINT_IMAGE_RESIZE_DOWN,
                field := "image" } },
          { source :=
              { node_id := NodeId.INPAINT_IMAGE_RESIZE_DOWN,
                field := "image" }
            destination :=
              { node_id := NodeId.CANVAS_OUTPUT, field := "image" } },
          { source := { node_id := NodeId.MASK_BLUR, field := "image" }
            destination :=
              { node_id := NodeId.MASK_RESIZE_DOWN, field := "image" } },
          { source :=
              { node_id := NodeId.MASK_RESIZE_DOWN, field := "image" }
            destination :=
              { node_id := NodeId.CANVAS_OUTPUT, field := "mask" } } ]
  else
    -- Add Images To Nodes
    let nodes := updNode graph.nodes NodeId.NOISE
      (fun nd => { nd with
        width := Option.some width
        height := Option.some height })
    let nodes := updNode nodes NodeId.CANVAS_COHERENCE_NOISE
      (fun nd => { nd with
        width := Option.some width
        height := Option.some height })
    let nodes := updNode nodes NodeId.INPAINT_IMAGE
      (fun nd => { nd with image := Option.some canvasInitImage })
    let nodes := updNode nodes NodeId.MASK_BLUR
      (fun nd => { nd with image := Option.some canvasMaskImage })
    let nodes := updNode nodes NodeId.INPAINT_CREATE_MASK
      (fun nd => { nd with image := Option.some canvasInitImage })
    pushEdges { graph with nodes := nodes }
        [ -- Color Correct The Inpainted Result
          { source :=
              { node_id := NodeId.LATENTS_TO_IMAGE, field := "image" }
            destination :=
              { node_id := NodeId.CANVAS_OUTPUT, field := "image" } },
          { source := { node_id := NodeId.MASK_BLUR, field := "image" }
            destination :=
              { node_id := NodeId.CANVAS_OUTPUT, field := "mask" } } ]

/-- The "Handle Coherence Mode" section of the source: when
`canvasCoherenceMode !== 'unmasked'` the coherence create-denoise-mask node is
added with its image input, the mask input is wired for 'mask' and 'edge'
modes, and the denoise mask is plugged into the coherence denoise node. -/
def coherenceStep (state : RootState) (canvasInitImage : ImageDTO)
    (canvasMaskImage : ImageDTO) (graph : Graph) : Graph :=
  let maskBlur := state.generation.maskBlur
  let canvasCoherenceMode := state.generation.canvasCoherenceMode
  let vaePrecision := state.generation.vaePrecision
  let fp32 := vaePrecision == "fp32"
  let is_intermediate := true
  let boundingBoxScaleMethod := state.canvas.boundingBoxScaleMethod
  let isUsingScaledDimensions :=
    boundingBoxScaleMethod = ScaleMethod.auto ∨
      boundingBoxScaleMethod = ScaleMethod.manual
  if canvasCoherenceMode ≠ CoherenceMode.unmasked then
    -- Create Mask If Coherence Mode Is Not Full
    let graph := { graph with
      nodes := setNode graph.nodes
        NodeId.CANVAS_COHERENCE_INPAINT_CREATE_MASK
        { type := "create_denoise_mask"
          id := NodeId.CANVAS_COHERENCE_INPAINT_CREATE_MASK
          is_intermediate := Option.some is_intermediate
          fp32 := Option.some fp32 } }
    -- Handle Image Input For Mask Creation
    let graph :=
      if isUsingScaledDimensions then
        pushEdges graph
            [ { source :=
                  { node_id := NodeId.INPAINT_IMAGE_RESIZE_UP,
                    field := "image" }
                destination :=
                  { node_id := NodeId.CANVAS_COHERENCE_INPAINT_CREATE_MASK,
                    field := "image" } } ]
      else
        { graph with
          nodes := updNode graph.nodes
            NodeId.CANVAS_COHERENCE_INPAINT_CREATE_MASK
            (fun nd => { nd with image := Option.some canvasInitImage }) }
    -- Create Mask If Coherence Mode Is Mask
    let graph :=
      if canvasCoherenceMode = CoherenceMode.mask then
        if isUsingScaledDimensions then
          pushEdges graph
              [ { source :=
                    { node_id := NodeId.MASK_RESIZE_UP, field := "image" }
                  destination :=
                    { node_id :=
                        NodeId.CANVAS_COHERENCE_INPAINT_CREATE_MASK,
                      field := "mask" } } ]
        else
          { graph with
            nodes := updNode graph.nodes
              NodeId.CANVAS_COHERENCE_INPAINT_CREATE_MASK
              (fun nd => { nd with mask := Option.some canvasMaskImage }) }
      else graph
    -- Create Mask Edge If Coherence Mode Is Edge
    let graph :=
      if canvasCoherenceMode = CoherenceMode.edge then
        let graph := { graph with
          nodes := setNode graph.nodes NodeId.CANVAS_COHERENCE_MASK_EDGE
            { type := "mask_edge"
              id := NodeId.CANVAS_COHERENCE_MASK_EDGE
              is_intermediate := Option.some is_intermediate
              edge_blur := Option.some maskBlur
              edge_size := Option.some (maskBlur * 2)
              low_threshold := Option.some 100
              high_threshold := Option.some 200 } }
        -- Handle Scaled Dimensions For Mask Edge
        let graph :=
          if isUsingScaledDimensions then
            pushEdges graph
                [ { source :=
                      { node_id := NodeId.MASK_RESIZE_UP,
                        field := "image" }
                    destination :=
                      { node_id := NodeId.CANVAS_COHERENCE_MASK_EDGE,
                        field := "image" } } ]
          else
            { graph with
              nodes := updNode graph.nodes
                NodeId.CANVAS_COHERENCE_MASK_EDGE
                (fun nd =>
                  { nd with image := Option.some canvasMaskImage }) }
        pushEdges graph
            [ { source :=
                  { node_id := NodeId.CANVAS_COHERENCE_MASK_EDGE,
                    field := "image" }
                destination :=
                  { node_id := NodeId.CANVAS_COHERENCE_INPAINT_CREATE_MASK,
                    field := "mask" } } ]
      else graph
    -- Plug Denoise Mask To Coherence Denoise Latents
    pushEdges graph
        [ { source :=
              { node_id := NodeId.CANVAS_COHERENCE_INPAINT_CREATE_MASK,
                field := "denoise_mask" }
            destination :=
              { node_id := NodeId.CANVAS_COHERENCE_DENOISE_LATENTS,
                field := "denoise_mask" } } ]
  else graph

/-- The "Handle Seed" section of the source: a `rand_int` node wired into
`RANGE_OF_SIZE.start` when `shouldRandomizeSeed` is set, else
`RANGE_OF_SIZE.start = seed`. -/
def seedStep (state : RootState) (graph : Graph) : Graph :=
  let seed := state.generation.seed
  let shouldRandomizeSeed := state.generation.shouldRandomizeSeed
  if shouldRandomizeSeed then
    -- Random int node to generate the starting seed
    let graph := { graph with
      nodes := setNode graph.nodes NodeId.RANDOM_INT
        { type := "rand_int", id := NodeId.RANDOM_INT } }
    -- Connect random int to the start of the range of size
    pushEdges graph
        [ { source := { node_id := NodeId.RANDOM_INT, field := "value" }
            destination :=
              { node_id := NodeId.RANGE_OF_SIZE, field := "start" } } ]
  else
    -- User specified seed, so set the start of the range of size
    { graph with
      nodes := updNode graph.nodes NodeId.RANGE_OF_SIZE
        (fun nd => { nd with start := Option.some seed }) }

/-- The tail of the source after the seed section: seamless, refiner, VAE,
LoRA, ControlNet, NSFW checker, watermarker and save-image stages, with the
source's `modelLoaderNodeId` reassignments. -/
def tailSteps (state : RootState) (canvasInitImage : ImageDTO)
    (graph : Graph) : Graph :=
  let seamlessXAxis := state.generation.seamlessXAxis
  let seamlessYAxis := state.generation.seamlessYAxis
  let shouldUseSDXLRefiner := state.sdxl.shouldUseSDXLRefiner
  let modelLoaderNodeId := NodeId.SDXL_MODEL_LOADER
  -- Add Seamless To Graph
  let graph :=
    if seamlessXAxis || seamlessYAxis then
      addSeamlessToLinearGraph state graph modelLoaderNodeId
    else graph
  let modelLoaderNodeId :=
    if seamlessXAxis || seamlessYAxis then NodeId.SEAMLESS
    else modelLoaderNodeId
  -- Add Refiner if enabled
  let graph :=
    if shouldUseSDXLRefiner then
      addSDXLRefinerToGraph state graph
        NodeId.CANVAS_COHERENCE_DENOISE_LATENTS modelLoaderNodeId
        canvasInitImage
    else graph
  let modelLoaderNodeId :=
    if shouldUseSDXLRefiner && (seamlessXAxis || seamlessYAxis) then
      NodeId.SDXL_REFINER_SEAMLESS
    else modelLoaderNodeId
  -- optionally add custom VAE
  let graph := addVAEToGraph state graph modelLoaderNodeId
  -- add LoRA support
  let graph :=
    addSDXLLoRAsToGraph state graph NodeId.SDXL_DENOISE_LATENTS
      modelLoaderNodeId
  -- add controlnet, mutating graph
  let graph :=
    addControlNetToLinearGraph state graph NodeId.SDXL_DENOISE_LATENTS
  -- NSFW & watermark - must be last thing added to graph
  let graph :=
    if state.system.shouldUseNSFWChecker then
      -- must add before watermarker!
      addNSFWCheckerToGraph state graph NodeId.CANVAS_OUTPUT
    else graph
  let graph :=
    if state.system.shouldUseWatermarker then
      -- must add after nsfw checker!
      addWatermarkerToGraph state graph NodeId.CANVAS_OUTPUT
    else graph
  addSaveImageNode state graph

/-- `buildCanvasSDXLInpaintGraph(state, canvasInitImage, canvasMaskImage)`:
builds the Canvas tab's SDXL Inpaint graph.  `throw new Error('No model found
in state')` is `Except.error`; the sequential JS mutations of `graph` are the
section functions above applied in source order. -/
def buildCanvasSDXLInpaintGraph (state : RootState)
    (canvasInitImage : ImageDTO) (canvasMaskImage : ImageDTO) :
    Except String Graph :=
  match state.generation.model with
  | Option.none => Except.error "No model found in state"
  | Option.some model =>
    Except.ok
      (tailSteps state canvasInitImage
        (seedStep state
          (coherenceStep state canvasInitImage canvasMaskImage
            (scaleStep state canvasInitImage canvasMaskImage
              (initialGraph state model canvasInitImage)))))

/-- Every stage after the seed section leaves the graph unchanged: the
seamless/refiner/VAE/LoRA/ControlNet/NSFW/watermark/save fragments are
modelled as empty (their sources are not under src/), and all the branching
in the tail only selects between applying such a fragment and not. -/
theorem tailSteps_id (s : RootState) (i : ImageDTO) (g : Graph) :
    tailSteps s i g = g := by
  simp only [tailSteps, addSeamlessToLinearGraph, addSDXLRefinerToGraph,
    addVAEToGraph, addSDXLLoRAsToGraph, addControlNetToLinearGraph,
    addNSFWCheckerToGraph, addWatermarkerToGraph, addSaveImageNode, ite_self]

/-- A concrete init image used to evaluate the builder. -/
def exInit : ImageDTO := { image_name := "init.png" }

/-- A concrete mask image used to evaluate the builder. -/
def exMask : ImageDTO := { image_name := "mask.png" }

/-- A concrete state with a model selected: auto bounding-box scaling,
'edge' coherence mode, fixed seed. -/
def exampleState : RootState :=
  { generation :=
      { positivePrompt := "a cat"
        negativePrompt := "blurry"
        model := Option.some { model_name := "sdxl-base", base_model := "sdxl" }
        cfgScale := 15 / 2
        scheduler := "euler"
        steps := 30
        iterations := 3
        seed := 42
        shouldRandomizeSeed := false
        vaePrecision := "fp32"
        shouldUseNoiseSettings := true
        shouldUseCpuNoise := true
        maskBlur := 8
        maskBlurMethod := "box"
        canvasCoherenceMode := CoherenceMode.edge
        canvasCoherenceSteps := 20
        canvasCoherenceStrength := 3 / 10
        seamlessXAxis := false
        seamlessYAxis := false }
    sdxl :=
      { sdxlImg2ImgDenoisingStrength := 7 / 10
        shouldUseSDXLRefiner := false
        refinerStart := 4 / 5
        shouldConcatSDXLStylePrompt := true
        positiveStylePrompt := "photo"
        negativeStylePrompt := "sketch" }
    canvas :=
      { boundingBoxDimensions := { width := 512, height := 512 }
        scaledBoundingBoxDimensions := { width := 1024, height := 1024 }
        boundingBoxScaleMethod := ScaleMethod.auto }
    system :=
      { shouldUseNSFWChecker := false
        shouldUseWatermarker := false } }

/-- The graph the builder returns on `exampleState` (the builder succeeds
there, so the default is never taken). -/
def exGraph : Graph :=
  (buildCanvasSDXLInpaintGraph exampleState exInit exMask).toOption.getD
    { id := "", nodes := [], edges := [] }

/-- C1: `buildCanvasSDXLInpaintGraph` throws if and only if no model is
selected: the result is `ok` exactly when `state.generation.model` is
present, for every state and every pair of init and mask images. -/
theorem build_ok_iff_model_present (s : RootState) (i m : ImageDTO) :
    (buildCanvasSDXLInpaintGraph s i m).isOk = s.generation.model.isSome := by
  rcases s with ⟨gen, sdxl, canvas, system⟩
  rcases gen with ⟨pp, np, mdl, cfg, sch, stp, iters, seed, rnd, vae, suns,
    sucn, mb, mbm, mode, ccs, ccst, sx, sy⟩
  cases mdl with
  | none => rfl
  | some mdl => rfl

/-- C3: the builder is a pure function of its arguments: equal states and
equal images give equal results.  (Immutability of the input state holds by
construction in this embedding: the state is never rebound.) -/
theorem build_deterministic (s₁ s₂ : RootState) (i₁ i₂ m₁ m₂ : ImageDTO)
    (hs : s₁ = s₂) (hi : i₁ = i₂) (hm : m₁ = m₂) :
    buildCanvasSDXLInpaintGraph s₁ i₁ m₁ =
      buildCanvasSDXLInpaintGraph s₂ i₂ m₂ := by
  rw [hs, hi, hm]

/-- C3 witness: the determinism theorem applied at a concrete input. -/
theorem build_deterministic_witness :
    buildCanvasSDXLInpaintGraph exampleState exInit exMask =
      buildCanvasSDXLInpaintGraph exampleState exInit exMask :=
  build_deterministic exampleState exampleState exInit exInit exMask exMask
    rfl rfl rfl

set_option maxHeartbeats 4000000 in
/-- C9: in every returned graph, the `use_cpu` field of the NOISE node and of
the CANVAS_COHERENCE_NOISE node equals `state.generation.shouldUseCpuNoise`,
whatever `state.generation.shouldUseNoiseSettings` is (the source's
conditional has identical arms). -/
theorem build_use_cpu (s : RootState) (i m : ImageDTO) (g : Graph)
    (h : buildCanvasSDXLInpaintGraph s i m = Except.ok g) :
    (getNode g NodeId.NOISE).map Node.use_cpu =
      Option.some (Option.some s.generation.shouldUseCpuNoise) ∧
    (getNode g NodeId.CANVAS_COHERENCE_NOISE).map Node.use_cpu =
      Option.some (Option.some s.generation.shouldUseCpuNoise) := by
  rcases s with ⟨gen, sdxl, canvas, system⟩
  rcases gen with ⟨pp, np, mdl, cfg, sch, stp, iters, seed, rnd, vae, suns,
    sucn, mb, mbm, mode, ccs, ccst, sx, sy⟩
  rcases canvas with ⟨bbd, sbbd, method⟩
  cases mdl with
  | none => exact Except.noConfusion h
  | some mdl =>
    simp only [buildCanvasSDXLInpaintGraph] at h
    rw [tailSteps_id] at h
    have hg := Except.ok.inj h
    subst hg
    cases method <;> cases mode <;> cases rnd <;>
      constructor <;>
      simp [seedStep, coherenceStep, scaleStep, initialGraph, setNode,
        updNode, pushEdges, getNode]

/-- C9 witness: the `use_cpu` theorem applied at a concrete state. -/
theorem build_use_cpu_witness :
    (getNode exGraph NodeId.NOISE).map Node.use_cpu =
      Option.some (Option.some exampleState.generation.shouldUseCpuNoise) ∧
    (getNode exGraph NodeId.CANVAS_COHERENCE_NOISE).map Node.use_cpu =
      Option.some (Option.some exampleState.generation.shouldUseCpuNoise) :=
  build_use_cpu exampleState exInit exMask exGraph rfl

/-- C2 fails on the code: the node stored under the key
CANVAS_COHERENCE_NOISE carries `id: NOISE` (source lines 173-175), so its
`id` field differs from its key and collides with the NOISE node's id, while
every other node's id equals its key.  Evaluated at a concrete state with a
model selected. -/
theorem build_duplicate_noise_id :
    (getNode exGraph NodeId.CANVAS_COHERENCE_NOISE).map Node.id =
      Option.some NodeId.NOISE ∧
    (getNode exGraph NodeId.NOISE).map Node.id = Option.some NodeId.NOISE ∧
    NodeId.CANVAS_COHERENCE_NOISE ≠ NodeId.NOISE := by
  refine ⟨?_, ?_, by decide⟩ <;> rfl

set_option maxHeartbeats 4000000 in
/-- C8: when `shouldRandomizeSeed` is set the graph gains a `rand_int` node
RANDOM_INT wired into `RANGE_OF_SIZE.start` and the `start` field stays
unset; otherwise no RANDOM_INT node exists and `start` equals the state's
seed.  In both cases RANGE_OF_SIZE has `size` = iterations and `step` = 1. -/
theorem build_seed_handling (s : RootState) (i m : ImageDTO) (g : Graph)
    (h : buildCanvasSDXLInpaintGraph s i m = Except.ok g) :
    (s.generation.shouldRandomizeSeed = true →
      (getNode g NodeId.RANDOM_INT).map Node.type =
        Option.some "rand_int" ∧
      ({ source := { node_id := NodeId.RANDOM_INT, field := "value" },
         destination :=
           { node_id := NodeId.RANGE_OF_SIZE, field := "start" } } : Edge) ∈
        g.edges ∧
      (getNode g NodeId.RANGE_OF_SIZE).map Node.start =
        Option.some Option.none) ∧
    (s.generation.shouldRandomizeSeed = false →
      hasNode g NodeId.RANDOM_INT = false ∧
      (getNode g NodeId.RANGE_OF_SIZE).map Node.start =
        Option.some (Option.some s.generation.seed)) ∧
    (getNode g NodeId.RANGE_OF_SIZE).map Node.size =
      Option.some (Option.some s.generation.iterations) ∧
    (getNode g NodeId.RANGE_OF_SIZE).map Node.step =
      Option.some (Option.some 1) := by
  rcases s with ⟨gen, sdxl, canvas, system⟩
  rcases gen with ⟨pp, np, mdl, cfg, sch, stp, iters, seed, rnd, vae, suns,
    sucn, mb, mbm, mode, ccs, ccst, sx, sy⟩
  rcases canvas with ⟨bbd, sbbd, method⟩
  cases mdl with
  | none => exact Except.noConfusion h
  | some mdl =>
    simp only [buildCanvasSDXLInpaintGraph] at h
    rw [tailSteps_id] at h
    have hg := Except.ok.inj h
    subst hg
    cases method <;> cases mode <;> cases rnd <;>
      simp [seedStep, coherenceStep, scaleStep, initialGraph, setNode,
        updNode, pushEdges, getNode, hasNode]

/-- C8 witness: the seed-handling theorem applied at a concrete state with
`shouldRandomizeSeed = false`. -/
theorem build_seed_handling_witness :
    (exampleState.generation.shouldRandomizeSeed = true →
      (getNode exGraph NodeId.RANDOM_INT).map Node.type =
        Option.some "rand_int" ∧
      ({ source := { node_id := NodeId.RANDOM_INT, field := "value" },
         destination :=
           { node_id := NodeId.RANGE_OF_SIZE, field := "start" } } : Edge) ∈
        exGraph.edges ∧
      (getNode exGraph NodeId.RANGE_OF_SIZE).map Node.start =
        Option.some Option.none) ∧
    (exampleState.generation.shouldRandomizeSeed = false →
      hasNode exGraph NodeId.RANDOM_INT = false ∧
      (getNode exGraph NodeId.RANGE_OF_SIZE).map Node.start =
        Option.some (Option.some exampleState.generation.seed)) ∧
    (getNode exGraph NodeId.RANGE_OF_SIZE).map Node.size =
      Option.some (Option.some exampleState.generation.iterations) ∧
    (getNode exGraph NodeId.RANGE_OF_SIZE).map Node.step =
      Option.some (Option.some 1) :=
  build_seed_handling exampleState exInit exMask exGraph rfl

set_option maxHeartbeats 8000000 in
/-- C10: the SDXL_DENOISE_LATENTS node's denoising window: with the refiner,
`denoising_start = min refinerStart (1 - strength)` and
`denoising_end = refinerStart`; without it, `denoising_start = 1 - strength`
and `denoising_end = 1`; and when the strength lies in [0, 1] the start never
exceeds the end. -/
theorem build_denoising_range (s : RootState) (i m : ImageDTO) (g : Graph)
    (h : buildCanvasSDXLInpaintGraph s i m = Except.ok g) :
    (s.sdxl.shouldUseSDXLRefiner = true →
      (getNode g NodeId.SDXL_DENOISE_LATENTS).map Node.denoising_start =
        Option.some (Option.some
          (min s.sdxl.refinerStart
            (1 - s.sdxl.sdxlImg2ImgDenoisingStrength))) ∧
      (getNode g NodeId.SDXL_DENOISE_LATENTS).map Node.denoising_end =
        Option.some (Option.some s.sdxl.refinerStart)) ∧
    (s.sdxl.shouldUseSDXLRefiner = false →
      (getNode g NodeId.SDXL_DENOISE_LATENTS).map Node.denoising_start =
        Option.some (Option.some
          (1 - s.sdxl.sdxlImg2ImgDenoisingStrength)) ∧
      (getNode g NodeId.SDXL_DENOISE_LATENTS).map Node.denoising_end =
        Option.some (Option.some 1)) ∧
    (0 ≤ s.sdxl.sdxlImg2ImgDenoisingStrength →
      s.sdxl.sdxlImg2ImgDenoisingStrength ≤ 1 →
      ∃ a b,
        (getNode g NodeId.SDXL_DENOISE_LATENTS).map Node.denoising_start =
          Option.some (Option.some a) ∧
        (getNode g NodeId.SDXL_DENOISE_LATENTS).map Node.denoising_end =
          Option.some (Option.some b) ∧
        a ≤ b) := by
  rcases s with ⟨gen, sdxl, canvas, system⟩
  rcases gen with ⟨pp, np, mdl, cfg, sch, stp, iters, seed, rnd, vae, suns,
    sucn, mb, mbm, mode, ccs, ccst, sx, sy⟩
  rcases sdxl with ⟨str, refiner, rst, concat, psp, nsp⟩
  rcases canvas with ⟨bbd, sbbd, method⟩
  cases mdl with
  | none => exact Except.noConfusion h
  | some mdl =>
    simp only [buildCanvasSDXLInpaintGraph] at h
    rw [tailSteps_id] at h
    have hg := Except.ok.inj h
    subst hg
    cases refiner <;> cases method <;> cases mode <;> cases rnd <;>
      simp [seedStep, coherenceStep, scaleStep, initialGraph, setNode,
        updNode, pushEdges, getNode, min_le_left, sub_le_self_iff] <;>
      exact fun h1 _ => h1

/-- C10 witness: the denoising-window theorem applied at a concrete state
without the refiner, with strength 7/10 in [0, 1]. -/
theorem build_denoising_range_witness :
    (exampleState.sdxl.shouldUseSDXLRefiner = true →
      (getNode exGraph NodeId.SDXL_DENOISE_LATENTS).map
          Node.denoising_start =
        Option.some (Option.some
          (min exampleState.sdxl.refinerStart
            (1 - exampleState.sdxl.sdxlImg2ImgDenoisingStrength))) ∧
      (getNode exGraph NodeId.SDXL_DENOISE_LATENTS).map Node.denoising_end =
        Option.some (Option.some exampleState.sdxl.refinerStart)) ∧
    (exampleState.sdxl.shouldUseSDXLRefiner = false →
      (getNode exGraph NodeId.SDXL_DENOISE_LATENTS).map
          Node.denoising_start =
        Option.some (Option.some
          (1 - exampleState.sdxl.sdxlImg2ImgDenoisingStrength)) ∧
      (getNode exGraph NodeId.SDXL_DENOISE_LATENTS).map Node.denoising_end =
        Option.some (Option.some 1)) ∧
    (0 ≤ exampleState.sdxl.sdxlImg2ImgDenoisingStrength →
      exampleState.sdxl.sdxlImg2ImgDenoisingStrength ≤ 1 →
      ∃ a b,
        (getNode exGraph NodeId.SDXL_DENOISE_LATENTS).map
            Node.denoising_start =
          Option.some (Option.some a) ∧
        (getNode exGraph NodeId.SDXL_DENOISE_LATENTS).map
            Node.denoising_end =
          Option.some (Option.some b) ∧
        a ≤ b) :=
  build_denoising_range exampleState exInit exMask exGraph rfl

set_option maxHeartbeats 8000000 in
/-- C6: the coherence create-denoise-mask node (type create_denoise_mask)
together with its denoise_mask edge into CANVAS_COHERENCE_DENOISE_LATENTS is
present iff canvasCoherenceMode is not 'unmasked', and the
CANVAS_COHERENCE_MASK_EDGE node (type mask_edge, edge_blur = maskBlur,
edge_size = 2 * maskBlur, low_threshold 100, high_threshold 200) feeding
that mask node's mask input is present iff the mode is 'edge'. -/
theorem build_coherence_mode_toggle (s : RootState) (i m : ImageDTO) (g : Graph)
    (h : buildCanvasSDXLInpaintGraph s i m = Except.ok g) :
    (((∃ nd,
        getNode g NodeId.CANVAS_COHERENCE_INPAINT_CREATE_MASK =
          Option.some nd ∧
        nd.type = "create_denoise_mask") ∧
      ({ source :=
           { node_id := NodeId.CANVAS_COHERENCE_INPAINT_CREATE_MASK,
             field := "denoise_mask" },
         destination :=
           { node_id := NodeId.CANVAS_COHERENCE_DENOISE_LATENTS,
             field := "denoise_mask" } } : Edge) ∈ g.edges) ↔
      s.generation.canvasCoherenceMode ≠ CoherenceMode.unmasked) ∧
    (((∃ nd,
        getNode g NodeId.CANVAS_COHERENCE_MASK_EDGE = Option.some nd ∧
        nd.type = "mask_edge" ∧
        nd.edge_blur = Option.some s.generation.maskBlur ∧
        nd.edge_size = Option.some (2 * s.generation.maskBlur) ∧
        nd.low_threshold = Option.some 100 ∧
        nd.high_threshold = Option.some 200) ∧
      ({ source :=
           { node_id := NodeId.CANVAS_COHERENCE_MASK_EDGE,
             field := "image" },
         destination :=
           { node_id := NodeId.CANVAS_COHERENCE_INPAINT_CREATE_MASK,
             field := "mask" } } : Edge) ∈ g.edges) ↔
      s.generation.canvasCoherenceMode = CoherenceMode.edge) := by
  rcases s with ⟨gen, sdxl, canvas, system⟩
  rcases gen with ⟨pp, np, mdl, cfg, sch, stp, iters, seed, rnd, vae, suns,
    sucn, mb, mbm, mode, ccs, ccst, sx, sy⟩
  rcases canvas with ⟨bbd, sbbd, method⟩
  cases mdl with
  | none => exact Except.noConfusion h
  | some mdl =>
    simp only [buildCanvasSDXLInpaintGraph] at h
    rw [tailSteps_id] at h
    have hg := Except.ok.inj h
    subst hg
    cases method <;> cases mode <;> cases rnd <;>
      simp [seedStep, coherenceStep, scaleStep, initialGraph, setNode,
        updNode, pushEdges, getNode, mul_comm]

set_option maxHeartbeats 8000000 in
/-- C7: with boundingBoxScaleMethod 'auto' or 'manual' the four img_resize
nodes exist, the up-resize nodes and both noise nodes carry the scaled
bounding-box dimensions; otherwise no resize node exists, the noise nodes
carry the bounding-box dimensions and the init and mask images are attached
directly to INPAINT_IMAGE, MASK_BLUR and INPAINT_CREATE_MASK. -/
theorem build_scaled_dimensions (s : RootState) (i m : ImageDTO) (g : Graph)
    (h : buildCanvasSDXLInpaintGraph s i m = Except.ok g) :
    ((s.canvas.boundingBoxScaleMethod = ScaleMethod.auto ∨
      s.canvas.boundingBoxScaleMethod = ScaleMethod.manual) →
      getNode g NodeId.INPAINT_IMAGE_RESIZE_UP =
        Option.some
          { type := "img_resize"
            id := NodeId.INPAINT_IMAGE_RESIZE_UP
            is_intermediate := Option.some true
            width :=
              Option.some s.canvas.scaledBoundingBoxDimensions.width
            height :=
              Option.some s.canvas.scaledBoundingBoxDimensions.height
            image := Option.some i } ∧
      getNode g NodeId.MASK_RESIZE_UP =
        Option.some
          { type := "img_resize"
            id := NodeId.MASK_RESIZE_UP
            is_intermediate := Option.some true
            width :=
              Option.some s.canvas.scaledBoundingBoxDimensions.width
            height :=
              Option.some s.canvas.scaledBoundingBoxDimensions.height
            image := Option.some m } ∧
      getNode g NodeId.INPAINT_IMAGE_RESIZE_DOWN =
        Option.some
          { type := "img_resize"
            id := NodeId.INPAINT_IMAGE_RESIZE_DOWN
            is_intermediate := Option.some true
            width := Option.some s.canvas.boundingBoxDimensions.width
            height := Option.some s.canvas.boundingBoxDimensions.height } ∧
      getNode g NodeId.MASK_RESIZE_DOWN =
        Option.some
          { type := "img_resize"
            id := NodeId.MASK_RESIZE_DOWN
            is_intermediate := Option.some true
            width := Option.some s.canvas.boundingBoxDimensions.width
            height := Option.some s.canvas.boundingBoxDimensions.height } ∧
      (getNode g NodeId.NOISE).map Node.width =
        Option.some
          (Option.some s.canvas.scaledBoundingBoxDimensions.width) ∧
      (getNode g NodeId.NOISE).map Node.height =
        Option.some
          (Option.some s.canvas.scaledBoundingBoxDimensions.height) ∧
      (getNode g NodeId.CANVAS_COHERENCE_NOISE).map Node.width =
        Option.some
          (Option.some s.canvas.scaledBoundingBoxDimensions.width) ∧
      (getNode g NodeId.CANVAS_COHERENCE_NOISE).map Node.height =
        Option.some
          (Option.some s.canvas.scaledBoundingBoxDimensions.height)) ∧
    (¬(s.canvas.boundingBoxScaleMethod = ScaleMethod.auto ∨
       s.canvas.boundingBoxScaleMethod = ScaleMethod.manual) →
      hasNode g NodeId.INPAINT_IMAGE_RESIZE_UP = false ∧
      hasNode g NodeId.MASK_RESIZE_UP = false ∧
      hasNode g NodeId.INPAINT_IMAGE_RESIZE_DOWN = false ∧
      hasNode g NodeId.MASK_RESIZE_DOWN = false ∧
      (getNode g NodeId.NOISE).map Node.width =
        Option.some (Option.some s.canvas.boundingBoxDimensions.width) ∧
      (getNode g NodeId.NOISE).map Node.height =
        Option.some (Option.some s.canvas.boundingBoxDimensions.height) ∧
      (getNode g NodeId.CANVAS_COHERENCE_NOISE).map Node.width =
        Option.some (Option.some s.canvas.boundingBoxDimensions.width) ∧
      (getNode g NodeId.CANVAS_COHERENCE_NOISE).map Node.height =
        Option.some (Option.some s.canvas.boundingBoxDimensions.height) ∧
      (getNode g NodeId.INPAINT_IMAGE).map Node.image =
        Option.some (Option.some i) ∧
      (getNode g NodeId.MASK_BLUR).map Node.image =
        Option.some (Option.some m) ∧
      (getNode g NodeId.INPAINT_CREATE_MASK).map Node.image =
        Option.some (Option.some i)) := by
  rcases s with ⟨gen, sdxl, canvas, system⟩
  rcases gen with ⟨pp, np, mdl, cfg, sch, stp, iters, seed, rnd, vae, suns,
    sucn, mb, mbm, mode, ccs, ccst, sx, sy⟩
  rcases canvas with ⟨bbd, sbbd, method⟩
  cases mdl with
  | none => exact Except.noConfusion h
  | some mdl =>
    simp only [buildCanvasSDXLInpaintGraph] at h
    rw [tailSteps_id] at h
    have hg := Except.ok.inj h
    subst hg
    cases method <;> cases mode <;> cases rnd <;>
      simp [seedStep, coherenceStep, scaleStep, initialGraph, setNode,
        updNode, pushEdges, getNode, hasNode]

/-- C6 witness: the coherence-toggle theorem applied at a concrete state in
'edge' mode. -/
theorem build_coherence_mode_toggle_witness :
    (((∃ nd,
        getNode exGraph NodeId.CANVAS_COHERENCE_INPAINT_CREATE_MASK =
          Option.some nd ∧
        nd.type = "create_denoise_mask") ∧
      ({ source :=
           { node_id := NodeId.CANVAS_COHERENCE_INPAINT_CREATE_MASK,
             field := "denoise_mask" },
         destination :=
           { node_id := NodeId.CANVAS_COHERENCE_DENOISE_LATENTS,
             field := "denoise_mask" } } : Edge) ∈ exGraph.edges) ↔
      exampleState.generation.canvasCoherenceMode ≠
        CoherenceMode.unmasked) ∧
    (((∃ nd,
        getNode exGraph NodeId.CANVAS_COHERENCE_MASK_EDGE =
          Option.some nd ∧
        nd.type = "mask_edge" ∧
        nd.edge_blur = Option.some exampleState.generation.maskBlur ∧
        nd.edge_size =
          Option.some (2 * exampleState.generation.maskBlur) ∧
        nd.low_threshold = Option.some 100 ∧
        nd.high_threshold = Option.some 200) ∧
      ({ source :=
           { node_id := NodeId.CANVAS_COHERENCE_MASK_EDGE,
             field := "image" },
         destination :=
           { node_id := NodeId.CANVAS_COHERENCE_INPAINT_CREATE_MASK,
             field := "mask" } } : Edge) ∈ exGraph.edges) ↔
      exampleState.generation.canvasCoherenceMode = CoherenceMode.edge) :=
  build_coherence_mode_toggle exampleState exInit exMask exGraph rfl

/-- C7 witness: the scaled-dimensions theorem applied at a concrete state
with 'auto' scaling. -/
theorem build_scaled_dimensions_witness :
    ((exampleState.canvas.boundingBoxScaleMethod = ScaleMethod.auto ∨
      exampleState.canvas.boundingBoxScaleMethod = ScaleMethod.manual) →
      getNode exGraph NodeId.INPAINT_IMAGE_RESIZE_UP =
        Option.some
          { type := "img_resize"
            id := NodeId.INPAINT_IMAGE_RESIZE_UP
            is_intermediate := Option.some true
            width :=
              Option.some
                exampleState.canvas.scaledBoundingBoxDimensions.width
            height :=
              Option.some
                exampleState.canvas.scaledBoundingBoxDimensions.height
            image := Option.some exInit } ∧
      getNode exGraph NodeId.MASK_RESIZE_UP =
        Option.some
          { type := "img_resize"
            id := NodeId.MASK_RESIZE_UP
            is_intermediate := Option.some true
            width :=
              Option.some
                exampleState.canvas.scaledBoundingBoxDimensions.width
            height :=
              Option.some
                exampleState.canvas.scaledBoundingBoxDimensions.height
            image := Option.some exMask } ∧
      getNode exGraph NodeId.INPAINT_IMAGE_RESIZE_DOWN =
        Option.some
          { type := "img_resize"
            id := NodeId.INPAINT_IMAGE_RESIZE_DOWN
            is_intermediate := Option.some true
            width :=
              Option.some exampleState.canvas.boundingBoxDimensions.width
            height :=
              Option.some
                exampleState.canvas.boundingBoxDimensions.height } ∧
      getNode exGraph NodeId.MASK_RESIZE_DOWN =
        Option.some
          { type := "img_resize"
            id := NodeId.MASK_RESIZE_DOWN
            is_intermediate := Option.some true
            width :=
              Option.some exampleState.canvas.boundingBoxDimensions.width
            height :=
              Option.some
                exampleState.canvas.boundingBoxDimensions.height } ∧
      (getNode exGraph NodeId.NOISE).map Node.width =
        Option.some
          (Option.some
            exampleState.canvas.scaledBoundingBoxDimensions.width) ∧
      (getNode exGraph NodeId.NOISE).map Node.height =
        Option.some
          (Option.some
            exampleState.canvas.scaledBoundingBoxDimensions.height) ∧
      (getNode exGraph NodeId.CANVAS_COHERENCE_NOISE).map Node.width =
        Option.some
          (Option.some
            exampleState.canvas.scaledBoundingBoxDimensions.width) ∧
      (getNode exGraph NodeId.CANVAS_COHERENCE_NOISE).map Node.height =
        Option.some
          (Option.some
            exampleState.canvas.scaledBoundingBoxDimensions.height)) ∧
    (¬(exampleState.canvas.boundingBoxScaleMethod = ScaleMethod.auto ∨
       exampleState.canvas.boundingBoxScaleMethod = ScaleMethod.manual) →
      hasNode exGraph NodeId.INPAINT_IMAGE_RESIZE_UP = false ∧
      hasNode exGraph NodeId.MASK_RESIZE_UP = false ∧
      hasNode exGraph NodeId.INPAINT_IMAGE_RESIZE_DOWN = false ∧
      hasNode exGraph NodeId.MASK_RESIZE_DOWN = false ∧
      (getNode exGraph NodeId.NOISE).map Node.width =
        Option.some
          (Option.some exampleState.canvas.boundingBoxDimensions.width) ∧
      (getNode exGraph NodeId.NOISE).map Node.height =
        Option.some
          (Option.some
            exampleState.canvas.boundingBoxDimensions.height) ∧
      (getNode exGraph NodeId.CANVAS_COHERENCE_NOISE).map Node.width =
        Option.some
          (Option.some exampleState.canvas.boundingBoxDimensions.width) ∧
      (getNode exGraph NodeId.CANVAS_COHERENCE_NOISE).map Node.height =
        Option.some
          (Option.some
            exampleState.canvas.boundingBoxDimensions.height) ∧
      (getNode exGraph NodeId.INPAINT_IMAGE).map Node.image =
        Option.some (Option.some exInit) ∧
      (getNode exGraph NodeId.MASK_BLUR).map Node.image =
        Option.some (Option.some exMask) ∧
      (getNode exGraph NodeId.INPAINT_CREATE_MASK).map Node.image =
        Option.some (Option.some exInit)) :=
  build_scaled_dimensions exampleState exInit exMask exGraph rfl

/-- Every edge endpoint of the graph names a key present in its nodes map. -/
def EdgesClosed (g : Graph) : Prop :=
  ∀ e ∈ g.edges,
    hasNode g e.source.node_id = true ∧
    hasNode g e.destination.node_id = true

/-- Non-empty directed paths along the edge list: one step follows an edge
from its source node id to its destination node id. -/
inductive Reaches (es : List Edge) : NodeId → NodeId → Prop where
  | single (e : Edge) (he : e ∈ es) :
      Reaches es e.source.node_id e.destination.node_id
  | trans {a b c : NodeId} (hab : Reaches es a b) (hbc : Reaches es b c) :
      Reaches es a c

/-- A graph is acyclic when no non-empty edge path returns to its start. -/
def Acyclic (g : Graph) : Prop := ∀ n, ¬ Reaches g.edges n n

/-- A topological height for the node ids: every edge the builder ever
emits goes from a lower-ranked node to a higher-ranked one. -/
def rank : NodeId → Nat
  | NodeId.SDXL_MODEL_LOADER => 0
  | NodeId.RANDOM_INT => 0
  | NodeId.POSITIVE_CONDITIONING => 1
  | NodeId.NEGATIVE_CONDITIONING => 1
  | NodeId.RANGE_OF_SIZE => 1
  | NodeId.INPAINT_IMAGE_RESIZE_UP => 1
  | NodeId.MASK_RESIZE_UP => 1
  | NodeId.ITERATE => 2
  | NodeId.INPAINT_IMAGE => 2
  | NodeId.MASK_BLUR => 2
  | NodeId.CANVAS_COHERENCE_MASK_EDGE => 2
  | NodeId.NOISE => 3
  | NodeId.INPAINT_CREATE_MASK => 3
  | NodeId.MASK_RESIZE_DOWN => 3
  | NodeId.CANVAS_COHERENCE_NOISE_INCREMENT => 3
  | NodeId.CANVAS_COHERENCE_INPAINT_CREATE_MASK => 3
  | NodeId.CANVAS_COHERENCE_NOISE => 4
  | NodeId.SDXL_DENOISE_LATENTS => 5
  | NodeId.CANVAS_COHERENCE_DENOISE_LATENTS => 6
  | NodeId.LATENTS_TO_IMAGE => 7
  | NodeId.INPAINT_IMAGE_RESIZE_DOWN => 8
  | NodeId.CANVAS_OUTPUT => 9
  | NodeId.SEAMLESS => 10
  | NodeId.SDXL_REFINER_SEAMLESS => 10

/-- A path along rank-increasing edges strictly increases the rank. -/
theorem Reaches_rank_lt {es : List Edge} {a b : NodeId}
    (hmono : ∀ e ∈ es, rank e.source.node_id < rank e.destination.node_id)
    (h : Reaches es a b) : rank a < rank b := by
  induction h with
  | single e he => exact hmono e he
  | trans hab hbc ih1 ih2 => exact lt_trans ih1 ih2

set_option maxHeartbeats 8000000 in
/-- Every edge of every returned graph goes from a lower-ranked node id to a
higher-ranked one, in all branch combinations. -/
theorem build_rank_mono (s : RootState) (i m : ImageDTO) (g : Graph)
    (h : buildCanvasSDXLInpaintGraph s i m = Except.ok g) :
    ∀ e ∈ g.edges,
      rank e.source.node_id < rank e.destination.node_id := by
  rcases s with ⟨gen, sdxl, canvas, system⟩
  rcases gen with ⟨pp, np, mdl, cfg, sch, stp, iters, seed, rnd, vae, suns,
    sucn, mb, mbm, mode, ccs, ccst, sx, sy⟩
  rcases canvas with ⟨bbd, sbbd, method⟩
  cases mdl with
  | none => exact Except.noConfusion h
  | some mdl =>
    simp only [buildCanvasSDXLInpaintGraph] at h
    rw [tailSteps_id] at h
    have hg := Except.ok.inj h
    subst hg
    cases method <;> cases mode <;> cases rnd <;>
      simp [seedStep, coherenceStep, scaleStep, initialGraph, setNode,
        updNode, pushEdges, rank]

/-- C4: every graph the builder returns is acyclic: no non-empty path along
its edges starts and ends at the same node. -/
theorem build_acyclic (s : RootState) (i m : ImageDTO) (g : Graph)
    (h : buildCanvasSDXLInpaintGraph s i m = Except.ok g) : Acyclic g :=
  fun _ hr =>
    absurd (Reaches_rank_lt (build_rank_mono s i m g h) hr)
      (Nat.lt_irrefl _)

/-- C4 witness: acyclicity of the graph built from a concrete state. -/
theorem build_acyclic_witness : Acyclic exGraph :=
  build_acyclic exampleState exInit exMask exGraph rfl

set_option maxHeartbeats 8000000 in
/-- C5: in every returned graph each edge's source and destination node id
is a key of the nodes map — in particular the edges pushed by the
scaled-dimensions, coherence-mode and seed branches only reference nodes
already added. -/
theorem build_edges_closed (s : RootState) (i m : ImageDTO) (g : Graph)
    (h : buildCanvasSDXLInpaintGraph s i m = Except.ok g) :
    EdgesClosed g := by
  rcases s with ⟨gen, sdxl, canvas, system⟩
  rcases gen with ⟨pp, np, mdl, cfg, sch, stp, iters, seed, rnd, vae, suns,
    sucn, mb, mbm, mode, ccs, ccst, sx, sy⟩
  rcases canvas with ⟨bbd, sbbd, method⟩
  cases mdl with
  | none => exact Except.noConfusion h
  | some mdl =>
    simp only [buildCanvasSDXLInpaintGraph] at h
    rw [tailSteps_id] at h
    have hg := Except.ok.inj h
    subst hg
    cases method <;> cases mode <;> cases rnd <;>
      simp [EdgesClosed, seedStep, coherenceStep, scaleStep, initialGraph,
        setNode, updNode, pushEdges, hasNode]

/-- C5 witness: edge closure of the graph built from a concrete state. -/
theorem build_edges_closed_witness : EdgesClosed exGraph :=
  build_edges_closed exampleState exInit exMask exGraph rfl
